import Mathlib

/-!
Verification of the Rachio node server (`rachio-poly.py`) against its
natural-language specification.  Each section shallowly embeds one part of
the program: the webhook (remote subscription) reconciler
`Controller.configureWebSockets`, the inbound push receiver
`webSocketHandler.do_POST` / `do_GET`, the cached fetch gates of
`RachioController.getDeviceInfo` / `getCurrentSchedule`, the node-addition
queue of `Controller`, and the bounded command-retry loops of the node
classes.  Remote calls are modelled with an explicit failure oracle
`fail : Nat → Bool` giving the outcome of the n-th mutating call.
-/

namespace RachioPoly

/-! ## Webhook reconciliation (`Controller.configureWebSockets`, lines 246-324)

A remote webhook record as returned by `notification.getDeviceWebhook`.
`wellFormed` models the presence of all four JSON keys checked at line 268
(`externalId`, `url`, `id`, `eventTypes`). -/

structure Webhook where
  wid : Nat
  externalId : String
  url : String
  eventTypes : List String
  wellFormed : Bool
deriving DecidableEq

/-- Remote calls issued by `configureWebSockets`: the initial listing
(`getDeviceWebhook`), `putWebhook`, `deleteWebhook`, `postWebhook`. -/
inductive RCall where
  | listWS : RCall
  | updateWS : Nat → RCall
  | deleteWS : Nat → RCall
  | createWS : RCall
deriving DecidableEq

/-- Result of the scan loop over the fetched listing: remaining remote
webhooks, the `_websocketFound` flag, the number of mutating calls
attempted, the calls attempted (in order), and whether the scan aborted
with an exception reaching the outer handler at line 323. -/
structure ScanOut where
  rem : List Webhook
  found : Bool
  nCalls : Nat
  calls : List RCall
  aborted : Bool
deriving DecidableEq

/-- Keys of `WS_EVENT_TYPES` (lines 35-45). -/
def wsEventTypeNames : List String :=
  ["DEVICE_STATUS", "RAIN_DELAY", "WEATHER_INTELLIGENCE", "WATER_BUDGET",
   "SCHEDULE_STATUS", "ZONE_STATUS", "RAIN_SENSOR_DETECTION", "ZONE_DELTA", "DELTA"]

/-- Event-type names the backend reports on a webhook it stores:
`WATER_BUDGET` is never returned (comment at line 289). -/
def returnedEventTypeNames : List String :=
  wsEventTypeNames.filter (fun k => !(k == "WATER_BUDGET"))

/-- Boolean test that `n` starts `h`. -/
def leadMatch : List Char → List Char → Bool
  | [], _ => true
  | _ :: _, [] => false
  | a :: as, b :: bs => a == b && leadMatch as bs

/-- Boolean test that `n` occurs contiguously somewhere in `h`. -/
def subSeqAt : List Char → List Char → Bool
  | n, [] => leadMatch n []
  | n, c :: rest => leadMatch n (c :: rest) || subSeqAt n rest

/-- Python's substring test `needle in hay` (line 270 uses
`_url not in _websocket['url']`). -/
def strIn (needle hay : String) : Bool :=
  subSeqAt needle.toList hay.toList

/-- The `_allEventsPresent` check of lines 282-292: every key of
`WS_EVENT_TYPES` other than `WATER_BUDGET` must appear among the
webhook's event-type names. -/
def allEventsPresent (w : Webhook) : Bool :=
  wsEventTypeNames.all (fun k => k == "WATER_BUDGET" || w.eventTypes.contains k)

/-- Remote effect of a successful `putWebhook(id, 'polyglot', _url,
_eventTypes)`: full field replacement; the backend subsequently reports
every requested event type except `WATER_BUDGET`. -/
def updWebhook (url : String) (w : Webhook) : Webhook :=
  { w with url := url, eventTypes := returnedEventTypeNames }

/-- Remote effect of a successful `postWebhook(deviceId, 'polyglot', _url,
_eventTypes)` (line 318). -/
def mkCreatedWebhook (url : String) : Webhook :=
  ⟨0, "polyglot", url, returnedEventTypeNames, true⟩

/-- The scan loop of `configureWebSockets` (lines 267-312) over the fetched
listing, which is also the remote state it mutates.  `n` counts mutating
calls attempted so far (index into the failure oracle), `found` is
`_websocketFound`.  The update attempts at lines 274 and 298 are wrapped in
their own `try`, so a failure leaves `found` false and the scan continues.
The delete at line 311 is not wrapped: if `deleteWebhook` raises the scan
aborts, and if it succeeds the next line raises `NameError` (it reads the
undefined `_deleteWS` instead of `_deleteWs`), so the scan aborts in either
case, right after the first delete attempt. -/
def scanWS (url : String) (fail : Nat → Bool) : Nat → Bool → List Webhook → ScanOut
  | n, found, [] => ⟨[], found, n, [], false⟩
  | n, found, w :: rest =>
    if w.wellFormed then
      if w.externalId == "polyglot" && !found then
        if !(strIn url w.url) then
          if fail n then
            let o := scanWS url fail (n + 1) false rest
            ⟨w :: o.rem, o.found, o.nCalls, RCall.updateWS w.wid :: o.calls, o.aborted⟩
          else
            let o := scanWS url fail (n + 1) true rest
            ⟨updWebhook url w :: o.rem, o.found, o.nCalls,
              RCall.updateWS w.wid :: o.calls, o.aborted⟩
        else if !(allEventsPresent w) then
          if fail n then
            let o := scanWS url fail (n + 1) false rest
            ⟨w :: o.rem, o.found, o.nCalls, RCall.updateWS w.wid :: o.calls, o.aborted⟩
          else
            let o := scanWS url fail (n + 1) true rest
            ⟨updWebhook url w :: o.rem, o.found, o.nCalls,
              RCall.updateWS w.wid :: o.calls, o.aborted⟩
        else
          let o := scanWS url fail n true rest
          ⟨w :: o.rem, o.found, o.nCalls, o.calls, o.aborted⟩
      else if w.externalId == "polyglot" && found then
        if fail n then
          ⟨w :: rest, found, n + 1, [RCall.deleteWS w.wid], true⟩
        else
          ⟨rest, found, n + 1, [RCall.deleteWS w.wid], true⟩
      else
        let o := scanWS url fail n found rest
        ⟨w :: o.rem, o.found, o.nCalls, o.calls, o.aborted⟩
    else
      let o := scanWS url fail n found rest
      ⟨w :: o.rem, o.found, o.nCalls, o.calls, o.aborted⟩

/-- One pass of `configureWebSockets` over a device's fetched listing:
list, scan, then create one webhook when none was found (lines 314-322;
skipped when an exception aborted the scan).  Returns the resulting remote
listing and the calls issued. -/
def configureWebSockets (url : String) (fail : Nat → Bool) (l : List Webhook) :
    List Webhook × List RCall :=
  let o := scanWS url fail 0 false l
  if !o.aborted && !o.found then
    if fail o.nCalls then (o.rem, RCall.listWS :: (o.calls ++ [RCall.createWS]))
    else (o.rem ++ [mkCreatedWebhook url], RCall.listWS :: (o.calls ++ [RCall.createWS]))
  else (o.rem, RCall.listWS :: o.calls)

/-- Number of listing entries with the bridge identifier `'polyglot'`. -/
def countBridge (l : List Webhook) : Nat :=
  (l.filter (fun w => w.externalId == "polyglot")).length

/-- Oracle for a pass in which every remote call succeeds. -/
def noFail : Nat → Bool := fun _ => false

/-! ## Push receiver (`webSocketHandler.do_POST`, lines 1146-1168)

An inbound POST body: either one that `json.loads` rejects, or a parsed
JSON object modelled as a field list. -/

inductive Payload where
  | unparseable : Payload
  | parsed : List (String × String) → Payload

/-- Observable outcome of one `do_POST` invocation: the `update_info`
calls made (node address paired with the `force` argument), the HTTP
status sent back (if any), and whether the handler logged an error.  The
handler's outer `try`/`except` (lines 1147, 1165) means it never raises
past its own boundary, which the totality of `doPOST` reflects. -/
structure PostOut where
  syncs : List (String × Bool)
  response : Option Nat
  errorLogged : Bool
deriving DecidableEq

/-- JSON object field lookup (`'deviceId' in _json_data` / subscript). -/
def lookupField : List (String × String) → String → Option String
  | [], _ => none
  | (k, v) :: rest, key => if k == key then some v else lookupField rest key

/-- The node loop of lines 1155-1159: scan registered nodes in order; on
the first node whose `device_id` equals the payload's, count it, call
`update_info(force=False, queryAPI=True)` and `break`. -/
def postScan (d : String) : List (String × String) → List (String × Bool) × Nat
  | [] => ([], 0)
  | (addr, dev) :: rest =>
    if dev == d then ([(addr, false)], 1)
    else postScan d rest

/-- `do_POST` over the registered nodes (address, device_id) in iteration
order: parse the body, look up `deviceId`, run the node scan, and send
`204` only when at least one node matched (lines 1161-1163).  Parse
failures are logged by the handler at line 1166; since v2.4.2 no response
is sent to invalid requests. -/
def doPOST (nodes : List (String × String)) (p : Payload) : PostOut :=
  match p with
  | Payload.unparseable => ⟨[], none, true⟩
  | Payload.parsed fields =>
    match lookupField fields "deviceId" with
    | none => ⟨[], none, false⟩
    | some d =>
      let s := postScan d nodes
      if s.2 > 0 then ⟨s.1, some 204, false⟩ else ⟨s.1, none, false⟩

/-! ## Liveness probe (`webSocketHandler.do_GET`, lines 1170-1190) -/

/-- The fixed JSON body sent by the probe (line 1177). -/
def successBody : String := "\x7b\"success\": \"True\"\x7d"

/-- `do_GET`: reply with the fixed success body exactly when the startup
connectivity test is still required or the server runs in cloud mode
(line 1174); otherwise send nothing (lines 1181-1183).  No node is
resolved and no `update_info` call is made on either path; the second
component records the (always empty) sync list. -/
def doGET (testRequired cloud : Bool) : Option String × List (String × Bool) :=
  if testRequired || cloud then (some successBody, []) else (none, [])

/-! ## Cached fetch gates (`RachioController.getDeviceInfo` lines 506-519,
`getCurrentSchedule` lines 521-535) -/

/-- The fetch condition of line 510:
`(_secSinceDeviceUpdate > 5 and force and self.discoverComplete) or
_secSinceDeviceUpdate > 3600`. -/
def deviceFetchGate (secSince : ℚ) (force discoverComplete : Bool) : Bool :=
  (decide (secSince > 5) && force && discoverComplete) || decide (secSince > 3600)

/-- The fetch condition of line 525, identical in form for the current
schedule document. -/
def schedFetchGate (secSince : ℚ) (force discoverComplete : Bool) : Bool :=
  (decide (secSince > 5) && force && discoverComplete) || decide (secSince > 3600)

/-- Per-resource cache: the last fetched document (abstracted to a `Nat`)
and the time of the last successful fetch. -/
structure DocCache where
  doc : Nat
  lastUpdate : ℚ
deriving DecidableEq

/-- `getDeviceInfo`: when the gate opens, call the remote; on success
store the fresh document and stamp `lastDeviceUpdateTime := now`
(lines 511-513), on failure (exception, line 516) leave the cache
untouched.  When the gate is closed, no remote call occurs and the cached
document is reused.  The second component records whether a remote fetch
was attempted. -/
def getDeviceInfo (now : ℚ) (st : DocCache) (force dc fetchOk : Bool) (fresh : Nat) :
    DocCache × Bool :=
  if deviceFetchGate (now - st.lastUpdate) force dc then
    if fetchOk then (⟨fresh, now⟩, true) else (st, true)
  else (st, false)

/-- `getCurrentSchedule`, same shape over `lastSchedUpdateTime`
(lines 526-528, 531). -/
def getCurrentSchedule (now : ℚ) (st : DocCache) (force dc fetchOk : Bool) (fresh : Nat) :
    DocCache × Bool :=
  if schedFetchGate (now - st.lastUpdate) force dc then
    if fetchOk then (⟨fresh, now⟩, true) else (st, true)
  else (st, false)

/-! ## Node-addition queue (`Controller.addNodeQueue`,
`_startNodeAdditionDelayTimer`, `_addNodesFromQueue`, lines 386-421) -/

/-- Queue state: pending node addresses in insertion order (Python dicts
preserve it) and the number of armed drain timers. -/
structure QState where
  queue : List String
  pendingTimers : Nat
deriving DecidableEq

/-- `self.timer.cancel()` (line 398): the armed timer, if any, is
cancelled. -/
def cancelTimer (s : QState) : QState :=
  { s with pendingTimers := 0 }

/-- `Timer(...).start()` (lines 399-400): one new timer armed. -/
def armTimer (s : QState) : QState :=
  { s with pendingTimers := s.pendingTimers + 1 }

/-- `_startNodeAdditionDelayTimer` (lines 395-405): always cancel the
previous timer, then arm a fresh one. -/
def startNodeAdditionDelayTimer (s : QState) : QState :=
  armTimer (cancelTimer s)

/-- `addNodeQueue` (lines 386-393): `self.nodeQueue[node.address] = node`
(an existing address is overwritten in place, a new one appended), then
restart the delay timer. -/
def addNodeQueue (addr : String) (s : QState) : QState :=
  startNodeAdditionDelayTimer
    { s with queue := if s.queue.contains addr then s.queue else s.queue ++ [addr] }

/-- One firing of the drain timer running `_addNodesFromQueue`
(lines 407-421).  The fired timer is no longer pending.  When the queue is
non-empty, exactly one entry is registered and removed (`break` at line
414); afterwards the timer is restarted only if entries remain (lines
416-419).  Returns the new state and the addresses registered. -/
def addNodesFromQueue (s : QState) : QState × List String :=
  let s0 : QState := { s with pendingTimers := s.pendingTimers - 1 }
  match s0.queue with
  | [] => (s0, [])
  | a :: rest =>
    let s1 : QState := { s0 with queue := rest }
    if rest.isEmpty then (s1, [a]) else (startNodeAdditionDelayTimer s1, [a])

/-! ## Command retry loops

Every command handler runs `self._tries = 0; while self._tries < 2:` with
the remote call in a `try`, incrementing `_tries` on failure
(`RachioController.enable`/`disable`/`stopCmd`/`rainDelay` lines 675-735,
`RachioZone.startCmd` lines 886-907, `RachioSchedule.startCmd`/
`seasonalAdjustment` lines 1011-1023 and 1039-1057).  The loop makes at
most `2 - _tries` further iterations, encoded as structural fuel. -/

/-- The generic bounded retry loop body: `fuel = 2 - _tries`, `n` indexes
the failure oracle.  Returns the boolean result and the number of remote
attempts made. -/
def cmdLoopFuel (fail : Nat → Bool) : Nat → Nat → Bool × Nat
  | 0, _ => (false, 0)
  | f + 1, n =>
    if fail n then
      let r := cmdLoopFuel fail f (n + 1)
      (r.1, r.2 + 1)
    else (true, 1)

/-- A whole command-issuing operation, entered with `_tries = 0`. -/
def commandRetry (fail : Nat → Bool) : Bool × Nat :=
  cmdLoopFuel fail 2 0

/-- `RachioSchedule.skip` (lines 1025-1037) deviates: its failure branch
reads `self._tries = self._tries = 1`, a chained assignment that sets
`_tries` to `1` on every failure instead of incrementing it, so
`_tries < 2` stays true forever.  Modelled with explicit fuel: `none`
means the loop is still running after `fuel` iterations. -/
def skipLoop (fail : Nat → Bool) : Nat → Nat → Nat → Option (Bool × Nat)
  | 0, _, _ => none
  | f + 1, n, tries =>
    if tries < 2 then
      if fail n then skipLoop fail f (n + 1) 1 else some (true, n + 1)
    else some (false, n)

/-- `RachioSchedule.skip` entered with `_tries = 0`. -/
def skipCmd (fail : Nat → Bool) (fuel : Nat) : Option (Bool × Nat) :=
  skipLoop fail fuel 0 0

/-! ## Zone start (`RachioZone.startCmd`, lines 886-907) -/

/-- The retry loop of `startCmd` with a supplied duration `m` (minutes):
inside the `try`, a zero duration returns `False` before the remote call
(lines 895-897); otherwise `zone.start` is attempted.  Fuel encodes
`2 - _tries`; the second component counts remote calls issued. -/
def zoneStartLoop (m : Int) (fail : Nat → Bool) : Nat → Nat → Bool × Nat
  | 0, _ => (false, 0)
  | f + 1, n =>
    if m == 0 then (false, 0)
    else
      if fail n then
        let r := zoneStartLoop m fail f (n + 1)
        (r.1, r.2 + 1)
      else (true, 1)

/-- `startCmd`: a missing value is rejected up front (lines 887-890),
otherwise the retry loop runs from `_tries = 0`. -/
def zoneStartCmd (value : Option Int) (fail : Nat → Bool) : Bool × Nat :=
  match value with
  | none => (false, 0)
  | some m => zoneStartLoop m fail 2 0

/-! ## Concrete data used by counterexamples and witnesses -/

/-- A sample desired webhook target url. -/
def url0 : String := "http://host:3001"

/-- A converged bridge webhook: desired url, full returned event set. -/
def wOK : Webhook := ⟨1, "polyglot", url0, returnedEventTypeNames, true⟩

/-- A bridge webhook whose url strictly contains the desired url. -/
def wSub : Webhook := ⟨1, "polyglot", "http://host:3001X", returnedEventTypeNames, true⟩

/-- Duplicate bridge webhooks. -/
def wDup2 : Webhook := ⟨2, "polyglot", url0, returnedEventTypeNames, true⟩

/-- A second duplicate bridge webhook. -/
def wDup3 : Webhook := ⟨3, "polyglot", url0, returnedEventTypeNames, true⟩

/-- A foreign (non-bridge) webhook. -/
def wOther : Webhook := ⟨7, "other", "u", [], true⟩

/-- Oracle under which exactly the first mutating call fails. -/
def failFirst : Nat → Bool := fun n => n == 0

/-! ## Helper lemmas -/

theorem leadMatch_self (l : List Char) : leadMatch l l = true := by
  induction l with
  | nil => rfl
  | cons c cs ih => simp [leadMatch, ih]

theorem subSeqAt_self (l : List Char) : subSeqAt l l = true := by
  cases l with
  | nil => rfl
  | cons c cs => simp [subSeqAt, leadMatch_self]

theorem strIn_self (s : String) : strIn s s = true :=
  subSeqAt_self s.toList

theorem countBridge_nil : countBridge [] = 0 := rfl

theorem countBridge_cons (w : Webhook) (l : List Webhook) :
    countBridge (w :: l) =
      (if w.externalId == "polyglot" then 1 else 0) + countBridge l := by
  by_cases h : (w.externalId == "polyglot") = true <;>
    simp [countBridge, List.filter, h, Nat.add_comm]

theorem countBridge_append (l₁ l₂ : List Webhook) :
    countBridge (l₁ ++ l₂) = countBridge l₁ + countBridge l₂ := by
  simp [countBridge, List.filter_append]

/-- Entries without the bridge identifier pass through the scan loop
untouched, whatever the failure oracle and `found` flag. -/
theorem scanWS_nobridge (url : String) (fail : Nat → Bool) (n : Nat) (found : Bool)
    (l : List Webhook) (h : ∀ v ∈ l, (v.externalId == "polyglot") = false) :
    scanWS url fail n found l = ⟨l, found, n, [], false⟩ := by
  induction l with
  | nil => rfl
  | cons v vs ih =>
    have hv : (v.externalId == "polyglot") = false := h v (List.mem_cons_self v vs)
    have ihv := ih (fun x hx => h x (List.mem_cons_of_mem v hx))
    by_cases hw : v.wellFormed = true <;> simp [scanWS, hv, hw, ihv]

/-- A bridge-free prefix of the listing passes through the scan loop
without affecting the state threaded into the suffix. -/
theorem scanWS_append_nobridge (url : String) (fail : Nat → Bool) (n : Nat) (found : Bool)
    (pre rest : List Webhook) (h : ∀ v ∈ pre, (v.externalId == "polyglot") = false) :
    scanWS url fail n found (pre ++ rest) =
      ⟨pre ++ (scanWS url fail n found rest).rem,
       (scanWS url fail n found rest).found,
       (scanWS url fail n found rest).nCalls,
       (scanWS url fail n found rest).calls,
       (scanWS url fail n found rest).aborted⟩ := by
  induction pre with
  | nil => simp
  | cons v vs ih =>
    have hv : (v.externalId == "polyglot") = false := h v (List.mem_cons_self v vs)
    have ihv := ih (fun x hx => h x (List.mem_cons_of_mem v hx))
    by_cases hw : v.wellFormed = true <;> simp [scanWS, hv, hw, ihv]

theorem updWebhook_externalId (url : String) (w : Webhook) :
    (updWebhook url w).externalId = w.externalId := rfl

theorem allEventsPresent_upd (url : String) (w : Webhook) :
    allEventsPresent (updWebhook url w) = true := by
  have h : allEventsPresent (updWebhook url w) =
      wsEventTypeNames.all
        (fun k => k == "WATER_BUDGET" || returnedEventTypeNames.contains k) := rfl
  rw [h]; decide

/-- Scan with `_websocketFound` already true and no call failures: with no
further bridge entry the listing passes through; otherwise the first
bridge entry is deleted and the scan aborts there (the `_deleteWS` name
error), leaving all later entries untouched. -/
theorem scanWS_true_noFail (url : String) (l : List Webhook) (n : Nat)
    (hwf : ∀ w ∈ l, w.wellFormed = true) :
    (countBridge l = 0 → scanWS url noFail n true l = ⟨l, true, n, [], false⟩) ∧
    (1 ≤ countBridge l →
      countBridge (scanWS url noFail n true l).rem = countBridge l - 1 ∧
      (scanWS url noFail n true l).aborted = true ∧
      (scanWS url noFail n true l).found = true) := by
  induction l generalizing n with
  | nil =>
    refine ⟨fun _ => rfl, fun h => absurd h ?_⟩
    simp [countBridge_nil]
  | cons w rest ih =>
    have hw : w.wellFormed = true := hwf w (List.mem_cons_self w rest)
    have ihr := fun m => ih m (fun x hx => hwf x (List.mem_cons_of_mem w hx))
    by_cases hb : (w.externalId == "polyglot") = true
    · have hcc : countBridge (w :: rest) = 1 + countBridge rest := by
        simp [countBridge_cons, hb]
      constructor
      · intro hc
        exact absurd hc (by rw [hcc]; omega)
      · intro _
        simp [scanWS, hw, hb, noFail, hcc, countBridge_cons]
    · have hcb : countBridge (w :: rest) = countBridge rest := by
        simp [countBridge_cons, hb]
      constructor
      · intro hc
        rw [hcb] at hc
        simp [scanWS, hw, hb, (ihr n).1 hc]
      · intro hc
        rw [hcb] at hc
        obtain ⟨h1, h2, h3⟩ := (ihr n).2 hc
        refine ⟨?_, ?_, ?_⟩ <;> simp [scanWS, hw, hb, countBridge_cons, h1, h2, h3, hcb]

/-- Scan from a fresh pass (`_websocketFound` false) with no call
failures: with no bridge entry the listing passes through untouched; with
at least one, the first bridge entry survives (updated in place when its
url or event set was wrong), satisfying the url-substring and event-set
checks, and of any duplicates only the first is deleted before the scan
aborts. -/
theorem scanWS_false_noFail (url : String) (l : List Webhook) (n : Nat)
    (hwf : ∀ w ∈ l, w.wellFormed = true) :
    (countBridge l = 0 → scanWS url noFail n false l = ⟨l, false, n, [], false⟩) ∧
    (1 ≤ countBridge l →
      (scanWS url noFail n false l).found = true ∧
      (countBridge l = 1 → countBridge (scanWS url noFail n false l).rem = 1) ∧
      (2 ≤ countBridge l →
        countBridge (scanWS url noFail n false l).rem = countBridge l - 1) ∧
      ∃ v ∈ (scanWS url noFail n false l).rem,
        v.externalId = "polyglot" ∧ strIn url v.url = true ∧ allEventsPresent v = true) := by
  induction l generalizing n with
  | nil =>
    refine ⟨fun _ => rfl, fun h => absurd h ?_⟩
    simp [countBridge_nil]
  | cons w rest ih =>
    have hw : w.wellFormed = true := hwf w (List.mem_cons_self w rest)
    have hwfr : ∀ x ∈ rest, x.wellFormed = true :=
      fun x hx => hwf x (List.mem_cons_of_mem w hx)
    have ihr := fun m => ih m hwfr
    by_cases hb : (w.externalId == "polyglot") = true
    · have hbe : w.externalId = "polyglot" := by simpa using hb
      have hcc : countBridge (w :: rest) = 1 + countBridge rest := by
        simp [countBridge_cons, hb]
      have hrest := scanWS_true_noFail url rest (n + 1) hwfr
      have hrest0 := scanWS_true_noFail url rest n hwfr
      refine ⟨fun hc => absurd hc (by rw [hcc]; omega), fun _ => ?_⟩
      have hhead : ∃ (v : Webhook) (m : Nat) (cs : List RCall),
          scanWS url noFail n false (w :: rest) =
            ⟨v :: (scanWS url noFail m true rest).rem,
             (scanWS url noFail m true rest).found,
             (scanWS url noFail m true rest).nCalls,
             cs,
             (scanWS url noFail m true rest).aborted⟩ ∧
          v.externalId = "polyglot" ∧ strIn url v.url = true ∧
          allEventsPresent v = true := by
        by_cases hstr : strIn url w.url = true
        · by_cases hev : allEventsPresent w = true
          · exact ⟨w, n, (scanWS url noFail n true rest).calls,
              by simp [scanWS, hw, hb, hstr, hev], hbe, hstr, hev⟩
          · refine ⟨updWebhook url w, n + 1,
              RCall.updateWS w.wid :: (scanWS url noFail (n + 1) true rest).calls,
              ?_, hbe, strIn_self url, allEventsPresent_upd url w⟩
            simp [scanWS, hw, hb, hstr, hev, noFail]
        · refine ⟨updWebhook url w, n + 1,
            RCall.updateWS w.wid :: (scanWS url noFail (n + 1) true rest).calls,
            ?_, hbe, strIn_self url, allEventsPresent_upd url w⟩
          simp [scanWS, hw, hb, hstr, noFail]
      obtain ⟨v, m, cs, hstep, hvb, hvs, hve⟩ := hhead
      have hrm := scanWS_true_noFail url rest m hwfr
      have hone : (if (v.externalId == "polyglot") = true then 1 else 0) = 1 := by
        simp [hvb]
      rcases Nat.eq_zero_or_pos (countBridge rest) with hr | hr
      · -- no duplicate: the suffix passes through
        have hid := hrm.1 hr
        rw [hstep, hid]
        refine ⟨rfl, ?_, ?_, v, List.mem_cons_self v rest, hvb, hvs, hve⟩
        · intro _
          rw [countBridge_cons, hone, hr]
        · intro h2
          rw [hcc, hr] at h2
          omega
      · -- at least one duplicate: the suffix scan deletes one and aborts
        obtain ⟨hr1, _, hr3⟩ := hrm.2 hr
        rw [hstep]
        refine ⟨hr3, ?_, ?_, v, List.mem_cons_self v _, hvb, hvs, hve⟩
        · intro h1
          rw [hcc] at h1
          omega
        · intro _
          rw [countBridge_cons, hone, hr1, hcc]
          omega
    · have hcb : countBridge (w :: rest) = countBridge rest := by
        simp [countBridge_cons, hb]
      constructor
      · intro hc
        rw [hcb] at hc
        simp [scanWS, hw, hb, (ihr n).1 hc]
      · intro hc
        rw [hcb] at hc
        obtain ⟨h1, h2, h3, v, hv, hprops⟩ := (ihr n).2 hc
        refine ⟨?_, ?_, ?_, v, ?_, hprops⟩
        · simp [scanWS, hw, hb, h1]
        · intro hc1
          rw [hcb] at hc1
          simp [scanWS, hw, hb, countBridge_cons, h2 hc1]
        · intro hc2
          rw [hcb] at hc2
          simp [scanWS, hw, hb, countBridge_cons, h3 hc2, hcb]
        · simp [scanWS, hw, hb, hv]

theorem bool_false_of_not_true {b : Bool} (h : ¬b = true) : b = false := by
  cases b
  · rfl
  · exact absurd rfl h

/-- A scan step over an entry that is skipped (missing keys or foreign
`externalId`) changes nothing but the surviving listing. -/
theorem scanWS_step_skip (url : String) (fail : Nat → Bool) (n : Nat) (found : Bool)
    (w : Webhook) (rest : List Webhook)
    (h : w.wellFormed = true → (w.externalId == "polyglot") = false) :
    scanWS url fail n found (w :: rest) =
      ⟨w :: (scanWS url fail n found rest).rem,
       (scanWS url fail n found rest).found,
       (scanWS url fail n found rest).nCalls,
       (scanWS url fail n found rest).calls,
       (scanWS url fail n found rest).aborted⟩ := by
  by_cases hw : w.wellFormed = true
  · simp [scanWS, hw, h hw]
  · simp [scanWS, hw]

/-- A scan step over an already-converged first bridge entry issues no
call. -/
theorem scanWS_step_ok (url : String) (fail : Nat → Bool) (n : Nat)
    (w : Webhook) (rest : List Webhook) (hw : w.wellFormed = true)
    (hb : (w.externalId == "polyglot") = true) (hstr : strIn url w.url = true)
    (hev : allEventsPresent w = true) :
    scanWS url fail n false (w :: rest) =
      ⟨w :: (scanWS url fail n true rest).rem,
       (scanWS url fail n true rest).found,
       (scanWS url fail n true rest).nCalls,
       (scanWS url fail n true rest).calls,
       (scanWS url fail n true rest).aborted⟩ := by
  simp [scanWS, hw, hb, hstr, hev]

/-- A failed update attempt on the first bridge entry leaves
`_websocketFound` false and the scan continues with the next entry. -/
theorem scanWS_step_update_fail (url : String) (fail : Nat → Bool) (n : Nat)
    (w : Webhook) (rest : List Webhook) (hw : w.wellFormed = true)
    (hb : (w.externalId == "polyglot") = true)
    (hupd : strIn url w.url = false ∨ allEventsPresent w = false)
    (hf : fail n = true) :
    scanWS url fail n false (w :: rest) =
      ⟨w :: (scanWS url fail (n + 1) false rest).rem,
       (scanWS url fail (n + 1) false rest).found,
       (scanWS url fail (n + 1) false rest).nCalls,
       RCall.updateWS w.wid :: (scanWS url fail (n + 1) false rest).calls,
       (scanWS url fail (n + 1) false rest).aborted⟩ := by
  rcases hupd with hstr | hev
  · simp [scanWS, hw, hb, hstr, hf]
  · by_cases hstr : strIn url w.url = true
    · simp [scanWS, hw, hb, hstr, hev, hf]
    · simp [scanWS, hw, hb, hstr, hf]

/-- A successful update attempt on the first bridge entry replaces it in
place and the scan continues with `_websocketFound` true. -/
theorem scanWS_step_update_ok (url : String) (fail : Nat → Bool) (n : Nat)
    (w : Webhook) (rest : List Webhook) (hw : w.wellFormed = true)
    (hb : (w.externalId == "polyglot") = true)
    (hupd : strIn url w.url = false ∨ allEventsPresent w = false)
    (hf : fail n = false) :
    scanWS url fail n false (w :: rest) =
      ⟨updWebhook url w :: (scanWS url fail (n + 1) true rest).rem,
       (scanWS url fail (n + 1) true rest).found,
       (scanWS url fail (n + 1) true rest).nCalls,
       RCall.updateWS w.wid :: (scanWS url fail (n + 1) true rest).calls,
       (scanWS url fail (n + 1) true rest).aborted⟩ := by
  rcases hupd with hstr | hev
  · simp [scanWS, hw, hb, hstr, hf]
  · by_cases hstr : strIn url w.url = true
    · simp [scanWS, hw, hb, hstr, hev, hf]
    · simp [scanWS, hw, hb, hstr, hf]

/-- A scan step over a duplicate bridge entry attempts its deletion and
aborts the pass, whether the delete call fails or succeeds. -/
theorem scanWS_step_delete (url : String) (fail : Nat → Bool) (n : Nat)
    (w : Webhook) (rest : List Webhook) (hw : w.wellFormed = true)
    (hb : (w.externalId == "polyglot") = true) :
    (scanWS url fail n true (w :: rest)).calls = [RCall.deleteWS w.wid] ∧
    (scanWS url fail n true (w :: rest)).aborted = true := by
  by_cases hf : fail n = true <;> simp [scanWS, hw, hb, hf]

/-- The scan only ever aborts right after a delete attempt: an aborted
scan's call trace ends in a `deleteWS`. -/
theorem scanWS_abort_last_delete (url : String) (fail : Nat → Bool) :
    ∀ (l : List Webhook) (n : Nat) (found : Bool),
      (scanWS url fail n found l).aborted = true →
      ∃ cs i, (scanWS url fail n found l).calls = cs ++ [RCall.deleteWS i] := by
  intro l
  induction l with
  | nil =>
    intro n found h
    exact absurd h (by simp [scanWS])
  | cons w rest ih =>
    intro n found h
    by_cases hw : w.wellFormed = true
    · by_cases hb : (w.externalId == "polyglot") = true
      · cases found with
        | true =>
          obtain ⟨hc, _⟩ := scanWS_step_delete url fail n w rest hw hb
          exact ⟨[], w.wid, by rw [hc]; rfl⟩
        | false =>
          by_cases hok : strIn url w.url = true ∧ allEventsPresent w = true
          · rw [scanWS_step_ok url fail n w rest hw hb hok.1 hok.2] at h ⊢
            obtain ⟨cs, i, hcs⟩ := ih n true h
            exact ⟨cs, i, hcs⟩
          · have hupd : strIn url w.url = false ∨ allEventsPresent w = false := by
              by_cases h1 : strIn url w.url = true
              · by_cases h2 : allEventsPresent w = true
                · exact absurd ⟨h1, h2⟩ hok
                · exact Or.inr (bool_false_of_not_true h2)
              · exact Or.inl (bool_false_of_not_true h1)
            by_cases hf : fail n = true
            · rw [scanWS_step_update_fail url fail n w rest hw hb hupd hf] at h ⊢
              obtain ⟨cs, i, hcs⟩ := ih (n + 1) false h
              refine ⟨RCall.updateWS w.wid :: cs, i, ?_⟩
              show RCall.updateWS w.wid :: (scanWS url fail (n + 1) false rest).calls = _
              rw [hcs, List.cons_append]
            · have hf' : fail n = false := bool_false_of_not_true hf
              rw [scanWS_step_update_ok url fail n w rest hw hb hupd hf'] at h ⊢
              obtain ⟨cs, i, hcs⟩ := ih (n + 1) true h
              refine ⟨RCall.updateWS w.wid :: cs, i, ?_⟩
              show RCall.updateWS w.wid :: (scanWS url fail (n + 1) true rest).calls = _
              rw [hcs, List.cons_append]
      · rw [scanWS_step_skip url fail n found w rest (fun _ => by simpa using hb)] at h ⊢
        exact ih n found h
    · rw [scanWS_step_skip url fail n found w rest (fun hww => absurd hww hw)] at h ⊢
      exact ih n found h

/-- A listing with no bridge entry never aborts the scan, whatever the
oracle and flag: only the delete path aborts, and it needs a bridge
entry. -/
theorem scanWS_nobridge_no_abort (url : String) (fail : Nat → Bool) :
    ∀ (l : List Webhook), countBridge l = 0 →
      ∀ (n : Nat) (found : Bool), (scanWS url fail n found l).aborted = false := by
  intro l
  induction l with
  | nil => intro _ n found; simp [scanWS]
  | cons w rest ih =>
    intro hc n found
    rw [countBridge_cons] at hc
    have hb : (w.externalId == "polyglot") = false := by
      by_cases h1 : (w.externalId == "polyglot") = true
      · rw [h1, if_pos rfl] at hc; omega
      · exact bool_false_of_not_true h1
    have hr : countBridge rest = 0 := by rw [hb] at hc; simpa using hc
    rw [scanWS_step_skip url fail n found w rest (fun _ => hb)]
    exact ih hr n found

/-- With at most one bridge entry in the listing, a fresh scan never
aborts, whatever calls fail: update failures do not abort the pass. -/
theorem scanWS_nodup_no_abort (url : String) (fail : Nat → Bool) :
    ∀ (l : List Webhook), countBridge l ≤ 1 →
      ∀ (n : Nat), (scanWS url fail n false l).aborted = false := by
  intro l
  induction l with
  | nil => intro _ n; simp [scanWS]
  | cons w rest ih =>
    intro hc n
    rw [countBridge_cons] at hc
    by_cases hb : (w.externalId == "polyglot") = true
    · have hr : countBridge rest = 0 := by rw [hb] at hc; simp at hc; omega
      by_cases hw : w.wellFormed = true
      · by_cases hok : strIn url w.url = true ∧ allEventsPresent w = true
        · rw [scanWS_step_ok url fail n w rest hw hb hok.1 hok.2]
          exact scanWS_nobridge_no_abort url fail rest hr n true
        · have hupd : strIn url w.url = false ∨ allEventsPresent w = false := by
            by_cases h1 : strIn url w.url = true
            · by_cases h2 : allEventsPresent w = true
              · exact absurd ⟨h1, h2⟩ hok
              · exact Or.inr (bool_false_of_not_true h2)
            · exact Or.inl (bool_false_of_not_true h1)
          by_cases hf : fail n = true
          · rw [scanWS_step_update_fail url fail n w rest hw hb hupd hf]
            exact scanWS_nobridge_no_abort url fail rest hr (n + 1) false
          · have hf' : fail n = false := bool_false_of_not_true hf
            rw [scanWS_step_update_ok url fail n w rest hw hb hupd hf']
            exact scanWS_nobridge_no_abort url fail rest hr (n + 1) true
      · rw [scanWS_step_skip url fail n false w rest (fun hww => absurd hww hw)]
        exact ih (by omega) n
    · have hbf : (w.externalId == "polyglot") = false := bool_false_of_not_true hb
      rw [scanWS_step_skip url fail n false w rest (fun _ => hbf)]
      rw [hbf] at hc
      exact ih (by simpa using hc) n

/-- Nodes with a foreign device id are passed over by the `do_POST` node
loop. -/
theorem postScan_append (d : String) (pre rest : List (String × String))
    (h : ∀ x ∈ pre, (x.2 == d) = false) :
    postScan d (pre ++ rest) = postScan d rest := by
  induction pre with
  | nil => rfl
  | cons x xs ih =>
    have hx : (x.2 == d) = false := h x (List.mem_cons_self x xs)
    have ihs := ih (fun y hy => h y (List.mem_cons_of_mem x hy))
    simp [postScan, hx, ihs]

/-- The `skip` retry loop never exits once every call fails, because its
failure branch resets `_tries` to 1 instead of incrementing it. -/
theorem skipLoop_allFail (fuel n tries : Nat) (h : tries < 2) :
    skipLoop (fun _ => true) fuel n tries = none := by
  induction fuel generalizing n tries with
  | zero => rfl
  | succ f ih =>
    simp only [skipLoop, if_pos h]
    exact ih (n + 1) 1 (by omega)

/-! ## Claims -/

/-- Claim C1, counterexample.  With two registered resources sharing the
payload's device id, `do_POST` triggers an unforced sync only for the
first of them and none for the second, refuting the claim that one
unforced sync is invoked for each matching registered resource. -/
theorem c1_counterexample :
    (doPOST [("a", "d"), ("b", "d")] (Payload.parsed [("deviceId", "d")])).syncs =
      [("a", false)] ∧
    ¬(("b", false) ∈ (doPOST [("a", "d"), ("b", "d")]
      (Payload.parsed [("deviceId", "d")])).syncs) := by
  decide

/-- Claim C1, amended.  For every inbound push payload carrying a
`deviceId`, the receiver invokes exactly one unforced sync, for the first
registered resource (in iteration order) whose device id matches, and
responds 204; in particular, when exactly one resource matches, exactly
one unforced sync is triggered for it and none for any other resource. -/
theorem c1_push_first_match_sync (pre post : List (String × String)) (addr d : String)
    (hpre : ∀ x ∈ pre, (x.2 == d) = false) :
    (doPOST (pre ++ (addr, d) :: post) (Payload.parsed [("deviceId", d)])).syncs =
      [(addr, false)] ∧
    (doPOST (pre ++ (addr, d) :: post) (Payload.parsed [("deviceId", d)])).response =
      some 204 := by
  have hscan : postScan d (pre ++ (addr, d) :: post) = ([(addr, false)], 1) := by
    rw [postScan_append d pre ((addr, d) :: post) hpre]
    simp [postScan]
  constructor <;> simp [doPOST, lookupField, hscan]

/-- Claim C1, witness for the amended theorem at a concrete node table. -/
theorem c1_push_first_match_sync_witness :
    (∀ x ∈ [("x", "e")], (x.2 == "d") = false) ∧
    ((doPOST ([("x", "e")] ++ ("a", "d") :: []) (Payload.parsed [("deviceId", "d")])).syncs =
        [("a", false)] ∧
      (doPOST ([("x", "e")] ++ ("a", "d") :: [])
          (Payload.parsed [("deviceId", "d")])).response = some 204) :=
  ⟨by decide, c1_push_first_match_sync [("x", "e")] [] "a" "d" (by decide)⟩

/-- Claim C2, counterexample.  Reconciling a listing of three bridge
entries leaves two of them (the abort after the first delete skips the
rest), and reconciling a single bridge entry whose url strictly contains
the desired url leaves its url different from the desired one — refuting
both the exactly-one-remains part and the url-equality part of the
claim. -/
theorem c2_counterexample :
    countBridge (configureWebSockets url0 noFail [wSub, wDup2, wDup3]).1 = 2 ∧
    (configureWebSockets url0 noFail [wSub]).1 = [wSub] ∧
    ¬(wSub.url = url0) := by
  decide

/-- Claim C2, amended.  After a reconciliation pass with no call failures
over a listing of well-formed subscriptions: when no bridge entry exists,
exactly one is created, carrying the desired url; when bridge entries
exist, a first bridge entry survives satisfying the url-substring check
and the event-type check (all desired types except `WATER_BUDGET`), a
listing with exactly two bridge entries converges to exactly one, and
with more duplicates exactly the first is deleted before the pass aborts,
so one duplicate is removed per pass. -/
theorem c2_reconcile_converges (url : String) (l : List Webhook)
    (hwf : ∀ w ∈ l, w.wellFormed = true) :
    (countBridge l = 0 →
      (configureWebSockets url noFail l).1 = l ++ [mkCreatedWebhook url] ∧
      countBridge (configureWebSockets url noFail l).1 = 1) ∧
    (1 ≤ countBridge l →
      (countBridge l = 1 → countBridge (configureWebSockets url noFail l).1 = 1) ∧
      (2 ≤ countBridge l →
        countBridge (configureWebSockets url noFail l).1 = countBridge l - 1) ∧
      ∃ v ∈ (configureWebSockets url noFail l).1,
        v.externalId = "polyglot" ∧ strIn url v.url = true ∧
        allEventsPresent v = true) := by
  obtain ⟨h0, h1⟩ := scanWS_false_noFail url l 0 hwf
  constructor
  · intro hc
    have hout : (configureWebSockets url noFail l).1 = l ++ [mkCreatedWebhook url] := by
      simp [configureWebSockets, h0 hc, noFail]
    refine ⟨hout, ?_⟩
    rw [hout, countBridge_append, hc, countBridge_cons]
    simp [mkCreatedWebhook, countBridge_nil]
  · intro hc
    obtain ⟨hf, hc1, hc2, v, hv, hprops⟩ := h1 hc
    have hout : (configureWebSockets url noFail l).1 = (scanWS url noFail 0 false l).rem := by
      simp [configureWebSockets, hf]
    rw [hout]
    exact ⟨hc1, hc2, v, hv, hprops⟩

/-- Claim C2, witness for the amended theorem: a listing with exactly two
bridge entries converges to exactly one. -/
theorem c2_reconcile_converges_witness :
    (∀ w ∈ [wOK, wDup2], w.wellFormed = true) ∧
    ((countBridge [wOK, wDup2] = 0 →
      (configureWebSockets url0 noFail [wOK, wDup2]).1 =
        [wOK, wDup2] ++ [mkCreatedWebhook url0] ∧
      countBridge (configureWebSockets url0 noFail [wOK, wDup2]).1 = 1) ∧
    (1 ≤ countBridge [wOK, wDup2] →
      (countBridge [wOK, wDup2] = 1 →
        countBridge (configureWebSockets url0 noFail [wOK, wDup2]).1 = 1) ∧
      (2 ≤ countBridge [wOK, wDup2] →
        countBridge (configureWebSockets url0 noFail [wOK, wDup2]).1 =
          countBridge [wOK, wDup2] - 1) ∧
      ∃ v ∈ (configureWebSockets url0 noFail [wOK, wDup2]).1,
        v.externalId = "polyglot" ∧ strIn url0 v.url = true ∧
        allEventsPresent v = true)) :=
  ⟨by decide, c2_reconcile_converges url0 [wOK, wDup2] (by decide)⟩

/-- Claim C3, counterexample.  In a listing with a converged bridge entry
followed by two duplicates, a failure of the single delete call (the
first mutating call of the pass) aborts the scan: the second duplicate is
never scanned or acted upon — no call is issued for it and it survives —
refuting the claim that a failing remote call never aborts the processing
of the remaining entries. -/
theorem c3_counterexample :
    (configureWebSockets url0 failFirst [wOK, wDup2, wDup3]).1 = [wOK, wDup2, wDup3] ∧
    (configureWebSockets url0 failFirst [wOK, wDup2, wDup3]).2 =
      [RCall.listWS, RCall.deleteWS 2] := by
  decide

/-- Claim C3, amended.  A failed update (or create) call is logged and
does not abort the scan: with at most one bridge entry a fresh scan never
aborts whatever calls fail; and the scan can only abort immediately after
a delete attempt (its call trace then ends in the delete), so any entries
after the first duplicate are left to a later pass. -/
theorem c3_update_failure_no_abort (url : String) (fail : Nat → Bool) (n : Nat)
    (found : Bool) (l : List Webhook) :
    ((scanWS url fail n found l).aborted = true →
      ∃ cs i, (scanWS url fail n found l).calls = cs ++ [RCall.deleteWS i]) ∧
    (countBridge l ≤ 1 → (scanWS url fail n false l).aborted = false) := by
  exact ⟨scanWS_abort_last_delete url fail l n found,
    fun h => scanWS_nodup_no_abort url fail l h n⟩

/-- Claim C3, witness for the amended theorem at the counterexample's
configuration (the aborted pass's trace ends in the delete call). -/
theorem c3_update_failure_no_abort_witness :
    (scanWS url0 failFirst 0 false [wOK, wDup2, wDup3]).aborted = true ∧
    (∃ cs i, (scanWS url0 failFirst 0 false [wOK, wDup2, wDup3]).calls =
      cs ++ [RCall.deleteWS i]) :=
  ⟨by decide,
    (c3_update_failure_no_abort url0 failFirst 0 false [wOK, wDup2, wDup3]).1 (by decide)⟩

/-- Claim C4.  Reconciliation is idempotent: over a listing whose one
bridge entry is well-formed, has the desired url and all required event
types except `WATER_BUDGET`, a pass issues the listing call and zero
mutating calls and leaves the remote state unchanged, whatever the
failure oracle; hence a second pass right after does the same. -/
theorem c4_reconcile_idempotent (url : String) (fail : Nat → Bool)
    (pre post : List Webhook) (w : Webhook)
    (hpre : ∀ v ∈ pre, (v.externalId == "polyglot") = false)
    (hpost : ∀ v ∈ post, (v.externalId == "polyglot") = false)
    (hwf : w.wellFormed = true) (hb : w.externalId = "polyglot")
    (hurl : w.url = url) (hev : allEventsPresent w = true) :
    configureWebSockets url fail (pre ++ w :: post) =
      (pre ++ w :: post, [RCall.listWS]) ∧
    configureWebSockets url fail
        ((configureWebSockets url fail (pre ++ w :: post)).1) =
      (pre ++ w :: post, [RCall.listWS]) := by
  have hb' : (w.externalId == "polyglot") = true := by simp [hb]
  have hstr : strIn url w.url = true := by rw [hurl]; exact strIn_self url
  have hscan : scanWS url fail 0 false (pre ++ w :: post) =
      ⟨pre ++ w :: post, true, 0, [], false⟩ := by
    rw [scanWS_append_nobridge url fail 0 false pre (w :: post) hpre]
    rw [scanWS_step_ok url fail 0 w post hwf hb' hstr hev]
    rw [scanWS_nobridge url fail 0 true post hpost]
  have h1 : configureWebSockets url fail (pre ++ w :: post) =
      (pre ++ w :: post, [RCall.listWS]) := by
    simp [configureWebSockets, hscan]
  exact ⟨h1, by rw [h1]; exact h1⟩

/-- Claim C4, witness at a concrete converged listing. -/
theorem c4_reconcile_idempotent_witness :
    (∀ v ∈ [wOther], (v.externalId == "polyglot") = false) ∧
    (∀ v ∈ ([] : List Webhook), (v.externalId == "polyglot") = false) ∧
    wOK.wellFormed = true ∧ wOK.externalId = "polyglot" ∧ wOK.url = url0 ∧
    allEventsPresent wOK = true ∧
    (configureWebSockets url0 (fun _ => true) ([wOther] ++ wOK :: []) =
        ([wOther] ++ wOK :: [], [RCall.listWS]) ∧
      configureWebSockets url0 (fun _ => true)
          ((configureWebSockets url0 (fun _ => true) ([wOther] ++ wOK :: [])).1) =
        ([wOther] ++ wOK :: [], [RCall.listWS])) :=
  ⟨by decide, by decide, by decide, by decide, by decide, by decide,
    c4_reconcile_idempotent url0 (fun _ => true) [wOther] [] wOK
      (by decide) (by decide) (by decide) (by decide) (by decide) (by decide)⟩

/-- Claim C5, counterexample.  A parsed payload with no `deviceId` field
is silently ignored: no error is logged and no response of any kind is
sent back, refuting the claim that malformed payloads are logged and
answered with an error response. -/
theorem c5_counterexample :
    (doPOST [("a", "d")] (Payload.parsed [("event", "x")])).response = none ∧
    (doPOST [("a", "d")] (Payload.parsed [("event", "x")])).errorLogged = false ∧
    (doPOST [("a", "d")] (Payload.parsed [("event", "x")])).syncs = [] := by
  decide

/-- Claim C5, amended.  Malformed inbound payloads trigger zero sync
calls and never raise past the handler's boundary; an unparseable body is
logged as an error, but no response is sent to the sender, and a parsed
body missing the `deviceId` field is ignored without logging or
response. -/
theorem c5_malformed_no_sync (nodes fields : List (String × String))
    (hmiss : lookupField fields "deviceId" = none) :
    doPOST nodes Payload.unparseable = ⟨[], none, true⟩ ∧
    doPOST nodes (Payload.parsed fields) = ⟨[], none, false⟩ := by
  constructor
  · rfl
  · simp [doPOST, hmiss]

/-- Claim C5, witness at a concrete malformed payload. -/
theorem c5_malformed_no_sync_witness :
    lookupField [("event", "x")] "deviceId" = none ∧
    (doPOST [("a", "d")] Payload.unparseable = ⟨[], none, true⟩ ∧
      doPOST [("a", "d")] (Payload.parsed [("event", "x")]) = ⟨[], none, false⟩) :=
  ⟨by decide, c5_malformed_no_sync [("a", "d")] [("event", "x")] (by decide)⟩

/-- Claim C6, counterexample.  A GET received by a local (non-cloud)
receiver after the startup connectivity test has passed gets no response
body at all, refuting the claim that the probe answers with the fixed
success payload regardless of the receiver's state. -/
theorem c6_counterexample :
    ¬((doGET false false).1 = some successBody) ∧ (doGET false false).1 = none := by
  decide

/-- Claim C6, amended.  The liveness probe answers with the fixed JSON
success payload exactly when the startup connectivity test is still
required or the receiver runs in cloud mode, and otherwise sends no
response; in every state it performs no resource resolution and no
synchronization. -/
theorem c6_probe_fixed_payload (t c : Bool) :
    (doGET t c).2 = [] ∧
    ((doGET t c).1 = some successBody ↔ (t || c) = true) := by
  cases t <;> cases c <;> simp [doGET]

/-- Claim C7.  The claim says every command-issuing operation attempts
the remote call at most twice and then reports failure; the shared retry
loop does behave that way, but `RachioSchedule.skip` does not: its
failure branch resets `_tries` to 1 (`self._tries = self._tries = 1`), so
with every call failing it never terminates — within any iteration bound
it has neither returned failure nor stopped calling. -/
theorem c7_skip_retry_unbounded :
    (∀ fuel, skipCmd (fun _ => true) fuel = none) ∧
    commandRetry (fun _ => true) = (false, 2) ∧
    (∀ fail, (commandRetry fail).2 ≤ 2) := by
  refine ⟨fun fuel => skipLoop_allFail fuel 0 0 (by omega), rfl, fun fail => ?_⟩
  cases h0 : fail 0 <;> cases h1 : fail 1 <;>
    simp [commandRetry, cmdLoopFuel, h0, h1]

/-- Claim C8.  For both cached fetch steps: a forced fetch is honored
only if more than the 5-second gate has elapsed since the last successful
fetch (so at least 5 seconds); a cache older than 3600 seconds is
refreshed unconditionally, regardless of force and of the gate; an
unforced call with cache age at or below 3600 seconds performs no remote
fetch and reuses the cached document unchanged. -/
theorem c8_fetch_gates (s : ℚ) (force dc : Bool) :
    (deviceFetchGate s true dc = true → 5 ≤ s) ∧
    (s > 3600 → deviceFetchGate s force dc = true) ∧
    (s ≤ 3600 → deviceFetchGate s false dc = false) ∧
    (schedFetchGate s true dc = true → 5 ≤ s) ∧
    (s > 3600 → schedFetchGate s force dc = true) ∧
    (s ≤ 3600 → schedFetchGate s false dc = false) ∧
    (∀ (now : ℚ) (st : DocCache) (fetchOk : Bool) (fresh : Nat),
      now - st.lastUpdate ≤ 3600 →
      getDeviceInfo now st false dc fetchOk fresh = (st, false)) ∧
    (∀ (now : ℚ) (st : DocCache) (fetchOk : Bool) (fresh : Nat),
      now - st.lastUpdate ≤ 3600 →
      getCurrentSchedule now st false dc fetchOk fresh = (st, false)) := by
  have hgateD : ∀ (x : ℚ) (f d : Bool),
      ((deviceFetchGate x true d = true → 5 ≤ x) ∧
       (x > 3600 → deviceFetchGate x f d = true) ∧
       (x ≤ 3600 → deviceFetchGate x false d = false)) := by
    intro x f d
    refine ⟨?_, ?_, ?_⟩
    · intro h
      simp [deviceFetchGate] at h
      rcases h with ⟨h5, _⟩ | h36 <;> linarith
    · intro h
      simp [deviceFetchGate]
      right
      exact h
    · intro h
      simp [deviceFetchGate]
      linarith
  have hgateS : ∀ (x : ℚ) (f d : Bool),
      ((schedFetchGate x true d = true → 5 ≤ x) ∧
       (x > 3600 → schedFetchGate x f d = true) ∧
       (x ≤ 3600 → schedFetchGate x false d = false)) := by
    intro x f d
    refine ⟨?_, ?_, ?_⟩
    · intro h
      simp [schedFetchGate] at h
      rcases h with ⟨h5, _⟩ | h36 <;> linarith
    · intro h
      simp [schedFetchGate]
      right
      exact h
    · intro h
      simp [schedFetchGate]
      linarith
  obtain ⟨ha, hb, hc⟩ := hgateD s force dc
  obtain ⟨ha2, hb2, hc2⟩ := hgateS s force dc
  refine ⟨ha, hb, hc, ha2, hb2, hc2, ?_, ?_⟩
  · intro now st fetchOk fresh h
    have hg := (hgateD (now - st.lastUpdate) force dc).2.2 h
    simp [getDeviceInfo, hg]
  · intro now st fetchOk fresh h
    have hg := (hgateS (now - st.lastUpdate) force dc).2.2 h
    simp [getCurrentSchedule, hg]

/-- Claim C8, witness: a 4000-second-old cache is refreshed even
unforced. -/
theorem c8_fetch_gates_witness :
    (4000 : ℚ) > 3600 ∧ deviceFetchGate 4000 false false = true :=
  ⟨by norm_num, (c8_fetch_gates 4000 false false).2.1 (by norm_num)⟩

/-- Claim C9.  One firing of the drain timer registers at most one queued
entry — exactly one when the queue is non-empty, shortening it by one;
when the fired timer was the only pending one, afterwards a timer is
pending again precisely when the queue is still non-empty; and arming a
new timer always cancels the previous one first, so starting the timer
(also via an enqueue) always leaves exactly one pending timer. -/
theorem c9_queue_drain_timer (s : QState) (a : String) :
    ((addNodesFromQueue s).2.length ≤ 1) ∧
    (s.queue ≠ [] →
      (addNodesFromQueue s).2.length = 1 ∧
      (addNodesFromQueue s).1.queue.length + 1 = s.queue.length) ∧
    (s.pendingTimers = 1 →
      ((addNodesFromQueue s).1.pendingTimers = 1 ↔
        (addNodesFromQueue s).1.queue ≠ [])) ∧
    (s.pendingTimers ≤ 1 → (addNodesFromQueue s).1.pendingTimers ≤ 1) ∧
    ((startNodeAdditionDelayTimer s).pendingTimers = 1) ∧
    ((addNodeQueue a s).pendingTimers = 1) := by
  obtain ⟨q, p⟩ := s
  match q with
  | [] =>
    have h : addNodesFromQueue ⟨[], p⟩ = (⟨[], p - 1⟩, []) := rfl
    refine ⟨by rw [h]; simp, by simp, ?_, ?_, rfl, rfl⟩
    · intro hp
      have hp' : p = 1 := hp
      rw [h]
      simp [hp']
    · intro hp
      have hp' : p ≤ 1 := hp
      rw [h]
      simp
      omega
  | [x] =>
    have h : addNodesFromQueue ⟨[x], p⟩ = (⟨[], p - 1⟩, [x]) := rfl
    refine ⟨by rw [h]; simp, by intro _; rw [h]; simp, ?_, ?_, rfl, rfl⟩
    · intro hp
      have hp' : p = 1 := hp
      rw [h]
      simp [hp']
    · intro hp
      have hp' : p ≤ 1 := hp
      rw [h]
      simp
      omega
  | x :: y :: t =>
    have h : addNodesFromQueue ⟨x :: y :: t, p⟩ = (⟨y :: t, 1⟩, [x]) := rfl
    refine ⟨by rw [h]; simp, by intro _; rw [h]; simp, ?_, ?_, rfl, rfl⟩
    · intro _
      rw [h]
      simp
    · intro _
      rw [h]

/-- Claim C9, witness: firing the drain timer on a two-entry queue with
one pending timer. -/
theorem c9_queue_drain_timer_witness :
    (QState.mk ["a", "b"] 1).pendingTimers = 1 ∧
    ((addNodesFromQueue ⟨["a", "b"], 1⟩).1.pendingTimers = 1 ↔
      (addNodesFromQueue ⟨["a", "b"], 1⟩).1.queue ≠ []) :=
  ⟨rfl, (c9_queue_drain_timer ⟨["a", "b"], 1⟩ "x").2.2.1 rfl⟩

/-- Claim C10.  A zone start command whose supplied duration value is 0
(as opposed to a missing value) returns failure without issuing any
remote call: the zero check inside the loop body fires before the remote
attempt. -/
theorem c10_zone_start_zero_duration (fail : Nat → Bool) :
    zoneStartCmd (some 0) fail = (false, 0) := by
  simp [zoneStartCmd, zoneStartLoop]

end RachioPoly
